import Mathlib

/-!
Shallow embedding of `solid.py` (a toy order/payment model) and proofs of
its specified properties.

Python objects become Lean structures; methods that mutate `self` become
functions returning the updated structure; `raise` becomes an explicit
exception field in the result.  Python integers are `Int`.  The index-based
loop in `total_price` is embedded with fallible indexing (`List.get?`), so
an out-of-bounds access shows up as `none` instead of being papered over.

`Order`'s three item lists are *class* attributes in the Python source
(`items = []` at class level), so every instance shares the same three
lists; `PyWorld` below models that sharing faithfully.  The single-instance
view `Order` is exact for everything observed through one instance.
-/

namespace Solid

/-- `class Order`: the per-instance view of an order (items, quantities,
prices, status).  Status defaults to `"open"`. -/
structure Order where
  items : List String
  quantities : List Int
  prices : List Int
  status : String
deriving Repr, DecidableEq

/-- `Order()`: a freshly constructed order as the class body declares it:
empty lists, status `"open"`. -/
def Order.new : Order :=
  { items := [], quantities := [], prices := [], status := "open" }

/-- `Order.add_item(self, name, quantity, price)`: appends to the three
parallel lists. -/
def Order.add_item (o : Order) (name : String) (quantity price : Int) : Order :=
  { o with
    items := o.items ++ [name]
    quantities := o.quantities ++ [quantity]
    prices := o.prices ++ [price] }

/-- `Order.total_price(self)`: `total = 0; for i in range(len(self.prices)):
total += self.quantities[i] * self.prices[i]; return total`.  Indexing is
fallible: `none` models an `IndexError`. -/
def Order.total_price (o : Order) : Option Int :=
  (List.range o.prices.length).foldlM
    (fun total i => do
      let q ← o.quantities.get? i
      let p ← o.prices.get? i
      pure (total + q * p))
    0

/-- Adding a list of `(name, quantity, price)` triples one after the other
via `add_item`. -/
def Order.addItems (o : Order) (l : List (String × Int × Int)) : Order :=
  l.foldl (fun acc t => acc.add_item t.1 t.2.1 t.2.2) o

/-- Specification-side total of a list of `(name, quantity, price)`
triples: `Σ quantity_i * price_i`. -/
def specTotal (l : List (String × Int × Int)) : Int :=
  (l.map (fun t => t.2.1 * t.2.2)).sum

/-- The parallel-lists invariant of an order: the three sequences have
equal length. -/
def Order.parallel (o : Order) : Prop :=
  o.items.length = o.quantities.length ∧ o.quantities.length = o.prices.length

instance (o : Order) : Decidable o.parallel := by
  unfold Order.parallel; infer_instance

/-- `class SMSAuth(Authorizer)`: `authorized = False` class default;
`verify_code` sets it (the assignment creates an instance attribute, so
instances do not share this flag). -/
structure SMSAuth where
  authorized : Bool
deriving Repr, DecidableEq

/-- A fresh `SMSAuth()` instance: reads the class default `False`. -/
def SMSAuth.new : SMSAuth := { authorized := false }

/-- `SMSAuth.verify_code(self, code)`: prints and sets
`self.authorized = True` unconditionally. -/
def SMSAuth.verify_code (a : SMSAuth) (code : String) : SMSAuth :=
  { a with authorized := true }

/-- `SMSAuth.is_authorized(self)`. -/
def SMSAuth.is_authorized (a : SMSAuth) : Bool := a.authorized

/-- `class NotARobot(Authorizer)`. -/
structure NotARobot where
  authorized : Bool
deriving Repr, DecidableEq

/-- A fresh `NotARobot()` instance. -/
def NotARobot.new : NotARobot := { authorized := false }

/-- `NotARobot.not_a_robot(self)`: prints and sets
`self.authorized = True` unconditionally. -/
def NotARobot.not_a_robot (a : NotARobot) : NotARobot :=
  { a with authorized := true }

/-- `NotARobot.is_authorized(self)`. -/
def NotARobot.is_authorized (a : NotARobot) : Bool := a.authorized

/-- The `Authorizer` abstract base class: the repository has exactly the
two concrete variants. -/
inductive Authorizer
  | sms (a : SMSAuth)
  | robot (a : NotARobot)
deriving Repr, DecidableEq

/-- Dynamic dispatch of `is_authorized`. -/
def Authorizer.is_authorized : Authorizer → Bool
  | .sms a => a.is_authorized
  | .robot a => a.is_authorized

/-- The operations (method calls) available on an authorizer. -/
inductive AuthOp
  | verify_code (code : String)
  | not_a_robot
deriving Repr, DecidableEq

/-- Applying one method call to an authorizer.  Calling a method the
object's class does not define raises `AttributeError` before any state
change, so the state is unchanged in that case. -/
def Authorizer.applyOp : Authorizer → AuthOp → Authorizer
  | .sms a, .verify_code c => .sms (a.verify_code c)
  | .robot a, .not_a_robot => .robot (a.not_a_robot)
  | a, _ => a

/-- Applying a sequence of method calls. -/
def Authorizer.applyOps (a : Authorizer) (ops : List AuthOp) : Authorizer :=
  ops.foldl Authorizer.applyOp a

/-- `class CreditPaymentProcessor(PaymentProcessor)`. -/
structure CreditPaymentProcessor where
  security_code : String
deriving Repr, DecidableEq

/-- `CreditPaymentProcessor.pay(self, order)`: prints diagnostics and sets
`order.status = "PAID"`. -/
def CreditPaymentProcessor.pay (pr : CreditPaymentProcessor) (o : Order) : Order :=
  { o with status := "PAID" }

/-- `class BitcoinPaymentProcessor(PaymentProcessor)`. -/
structure BitcoinPaymentProcessor where
  wallet_id : String
deriving Repr, DecidableEq

/-- `BitcoinPaymentProcessor.pay(self, order)`: prints diagnostics and sets
`order.status = "PAID"`. -/
def BitcoinPaymentProcessor.pay (pr : BitcoinPaymentProcessor) (o : Order) : Order :=
  { o with status := "PAID" }

/-- `class DebitPaymentProcessor(PaymentProcessor)`: holds a security code
and an `Authorizer`. -/
structure DebitPaymentProcessor where
  security_code : String
  auth : Authorizer
deriving Repr, DecidableEq

/-- Result of a `pay` call that may raise: the exception message (if any)
together with the order state after the call. -/
structure PayResult where
  exn : Option String
  order : Order
deriving Repr, DecidableEq

/-- `DebitPaymentProcessor.pay(self, order)`:
`if not self.auth.is_authorized(): raise Exception("Not Authorized")`,
otherwise prints diagnostics and sets `order.status = "PAID"`.  The raise
happens before any mutation, so on the error path the order is returned
unchanged. -/
def DebitPaymentProcessor.pay (pr : DebitPaymentProcessor) (o : Order) : PayResult :=
  if !pr.auth.is_authorized then
    { exn := some "Not Authorized", order := o }
  else
    { exn := none, order := { o with status := "PAID" } }

/-- The instance `__dict__` of one `Order` object: `status` is the only
attribute ever assigned through `self.`, and only by a successful `pay`.
`none` means the attribute is absent and lookup falls back to the class
attribute `"open"`. -/
structure OrderInstAttrs where
  statusAttr : Option String
deriving Repr, DecidableEq

/-- The interpreter state relevant to `Order`: the three *class-level*
lists (`items = []`, `quantities = []`, `prices = []` in the class body
are evaluated once and shared by every instance; `self.items.append`
mutates them in place), plus the per-instance attribute dictionaries. -/
structure PyWorld where
  orderClassItems : List String
  orderClassQuantities : List Int
  orderClassPrices : List Int
  orderInsts : List OrderInstAttrs
deriving Repr, DecidableEq

/-- Interpreter start-up: the class body has just run. -/
def PyWorld.init : PyWorld :=
  { orderClassItems := [], orderClassQuantities := [], orderClassPrices := []
    orderInsts := [] }

/-- `Order()`: allocates a new instance with an empty `__dict__`; returns
the new world and the instance's index. -/
def PyWorld.newOrder (w : PyWorld) : PyWorld × Nat :=
  ({ w with orderInsts := w.orderInsts ++ [{ statusAttr := none }] },
    w.orderInsts.length)

/-- `o_i.add_item(name, quantity, price)`: `self.items` resolves to the
class attribute (the instance has none), and `.append` mutates that shared
list — the index `i` of the receiving instance is irrelevant, which is
exactly the sharing being modelled. -/
def PyWorld.addItem (w : PyWorld) (i : Nat) (name : String) (q p : Int) : PyWorld :=
  { w with
    orderClassItems := w.orderClassItems ++ [name]
    orderClassQuantities := w.orderClassQuantities ++ [q]
    orderClassPrices := w.orderClassPrices ++ [p] }

/-- Reading `o_i.items`: attribute lookup falls back to the shared class
list. -/
def PyWorld.orderItems (w : PyWorld) (i : Nat) : List String :=
  w.orderClassItems

/-- Reading `o_i.quantities`. -/
def PyWorld.orderQuantities (w : PyWorld) (i : Nat) : List Int :=
  w.orderClassQuantities

/-- Reading `o_i.prices`. -/
def PyWorld.orderPrices (w : PyWorld) (i : Nat) : List Int :=
  w.orderClassPrices

/-- Reading `o_i.status`: the instance attribute when present, else the
class attribute `"open"` (never reassigned at class level). -/
def PyWorld.orderStatus (w : PyWorld) (i : Nat) : String :=
  match (w.orderInsts.get? i).bind OrderInstAttrs.statusAttr with
  | some s => s
  | none => "open"

end Solid

namespace Solid

/-- The index loop of `total_price`, run on explicit lists: when the two
lists have equal length every access succeeds and the loop computes the
dot product. -/
lemma total_loop_eq (qs : List Int) :
    ∀ (ps : List Int), qs.length = ps.length → ∀ (t : Int),
      ((List.range ps.length).foldlM
        (fun total i => do
          let q ← qs.get? i
          let p ← ps.get? i
          pure (total + q * p))
        t : Option Int)
      = some (t + ((qs.zip ps).map (fun x => x.1 * x.2)).sum) := by
  induction qs with
  | nil =>
    intro ps h t
    cases ps with
    | nil => simp
    | cons p ps => simp at h
  | cons q qs ih =>
    intro ps h t
    cases ps with
    | nil => simp at h
    | cons p ps =>
      simp only [List.length_cons] at h
      have h' : qs.length = ps.length := Nat.succ_injective h
      rw [List.length_cons, List.range_succ_eq_map, List.foldlM_cons]
      simp only [List.get?_cons_zero, Option.pure_def, Option.bind_eq_bind,
        Option.some_bind]
      rw [List.foldlM_map]
      simp only [List.get?_cons_succ]
      have hih := ih ps h' (t + q * p)
      simp only [Option.pure_def, Option.bind_eq_bind] at hih ⊢
      rw [hih]
      simp [List.zip_cons_cons, add_assoc]

end Solid

namespace Solid

/-- `total_price` on any order whose quantities and prices lists have the
same length: every index access succeeds and the result is the dot
product. -/
lemma Order.total_price_eq (o : Order) (h : o.quantities.length = o.prices.length) :
    o.total_price = some (((o.quantities.zip o.prices).map (fun x => x.1 * x.2)).sum) := by
  have := total_loop_eq o.quantities o.prices h 0
  simpa [Order.total_price] using this

/-- `addItems` leaves the status alone and appends the components of the
triples to the three lists. -/
lemma Order.addItems_fields (o : Order) (l : List (String × Int × Int)) :
    (o.addItems l).items = o.items ++ l.map (fun t => t.1)
    ∧ (o.addItems l).quantities = o.quantities ++ l.map (fun t => t.2.1)
    ∧ (o.addItems l).prices = o.prices ++ l.map (fun t => t.2.2)
    ∧ (o.addItems l).status = o.status := by
  induction l generalizing o with
  | nil => simp [Order.addItems]
  | cons hd tl ih =>
    have := ih (o.add_item hd.1 hd.2.1 hd.2.2)
    simpa [Order.addItems, Order.add_item, List.append_assoc] using this

end Solid

namespace Solid

/-- One method call never turns an authorized authorizer back into an
unauthorized one. -/
lemma Authorizer.applyOp_mono (a : Authorizer) (op : AuthOp)
    (h : a.is_authorized = true) : (a.applyOp op).is_authorized = true := by
  cases a <;> cases op <;>
    simp_all [Authorizer.applyOp, Authorizer.is_authorized,
      SMSAuth.is_authorized, SMSAuth.verify_code,
      NotARobot.is_authorized, NotARobot.not_a_robot]

/-- C1: `DebitPaymentProcessor.pay(order)` raises the "Not Authorized"
error if and only if the supplied authorizer's `is_authorized()` returns
false at call time; when `is_authorized()` is true, `pay` does not
raise. -/
theorem debit_pay_raises_iff_unauthorized
    (pr : DebitPaymentProcessor) (o : Order) :
    ((pr.pay o).exn = some "Not Authorized" ↔ pr.auth.is_authorized = false)
    ∧ ((pr.pay o).exn ≠ none ↔ pr.auth.is_authorized = false)
    ∧ (pr.auth.is_authorized = true → (pr.pay o).exn = none) := by
  cases h : pr.auth.is_authorized <;>
    simp [DebitPaymentProcessor.pay, h]

/-- C1, instantiated: a debit processor holding a fresh (unverified)
`SMSAuth` raises on `pay`. -/
theorem debit_pay_raises_iff_unauthorized_witness :
    ((DebitPaymentProcessor.mk "9876" (Authorizer.sms SMSAuth.new)).pay
        Order.new).exn = some "Not Authorized" := by
  have h := debit_pay_raises_iff_unauthorized
    (DebitPaymentProcessor.mk "9876" (Authorizer.sms SMSAuth.new)) Order.new
  exact h.1.mpr (by decide)

/-- C2: when `DebitPaymentProcessor.pay` raises the unauthorized error on
an open order, the order is completely unchanged: status still "open",
items, quantities and prices untouched. -/
theorem debit_pay_unauthorized_order_unchanged
    (pr : DebitPaymentProcessor) (o : Order)
    (hs : o.status = "open") (ha : pr.auth.is_authorized = false) :
    (pr.pay o).exn = some "Not Authorized"
    ∧ (pr.pay o).order = o
    ∧ (pr.pay o).order.status = "open"
    ∧ (pr.pay o).order.items = o.items
    ∧ (pr.pay o).order.quantities = o.quantities
    ∧ (pr.pay o).order.prices = o.prices := by
  simp [DebitPaymentProcessor.pay, ha, hs]

/-- C2, instantiated at a fresh order and an unverified `NotARobot`. -/
theorem debit_pay_unauthorized_order_unchanged_witness :
    Order.new.status = "open"
    ∧ (DebitPaymentProcessor.mk "9876"
        (Authorizer.robot NotARobot.new)).auth.is_authorized = false
    ∧ ((DebitPaymentProcessor.mk "9876"
        (Authorizer.robot NotARobot.new)).pay Order.new).order = Order.new :=
  ⟨by decide, by decide,
    (debit_pay_unauthorized_order_unchanged
      (DebitPaymentProcessor.mk "9876" (Authorizer.robot NotARobot.new))
      Order.new (by decide) (by decide)).2.1⟩

/-- C3: for any sequence of triples added through `add_item` to a fresh
order, `total_price` returns `Σ quantity_i * price_i`, and a fresh (empty)
order totals 0. -/
theorem total_price_eq_sum_of_added_items (l : List (String × Int × Int)) :
    (Order.new.addItems l).total_price = some (specTotal l)
    ∧ Order.new.total_price = some 0 := by
  constructor
  · obtain ⟨hi, hq, hp, hs⟩ := Order.addItems_fields Order.new l
    have hlen : (Order.new.addItems l).quantities.length
        = (Order.new.addItems l).prices.length := by
      rw [hq, hp]; simp [Order.new]
    rw [Order.total_price_eq _ hlen, hq, hp]
    simp [Order.new, specTotal, List.zip_map', List.map_map, Function.comp_def]
  · decide

end Solid

namespace Solid

/-- The run exhibiting the shared-class-attribute behaviour of `Order`:
construct an order, add one item through it, then construct a second
order. -/
def bugAlloc1 : PyWorld × Nat := PyWorld.init.newOrder

/-- World after `o1.add_item("Keyboard", 1, 50)`. -/
def bugAfterAdd : PyWorld := bugAlloc1.1.addItem bugAlloc1.2 "Keyboard" 1 50

/-- World and index after the second `Order()`. -/
def bugAlloc2 : PyWorld × Nat := bugAfterAdd.newOrder

/-- C4 (code bug): `items`, `quantities` and `prices` are mutable *class*
attributes of `Order`, shared by every instance, so an `Order` constructed
after another instance has added an item is not empty: its `items` already
reads `["Keyboard"]`.  Its status, by contrast, is a per-instance
attribute and is still `"open"`. -/
theorem new_order_shares_items_of_prior_orders :
    bugAlloc2.1.orderItems bugAlloc2.2 = ["Keyboard"]
    ∧ bugAlloc2.1.orderItems bugAlloc2.2 ≠ ([] : List String)
    ∧ bugAlloc2.1.orderQuantities bugAlloc2.2 = [(1 : Int)]
    ∧ bugAlloc2.1.orderPrices bugAlloc2.2 = [(50 : Int)]
    ∧ bugAlloc2.1.orderStatus bugAlloc2.2 = "open" := by
  decide

/-- C5: every payment variant — credit, debit with an authorized
authorizer, cryptocurrency — sets the order's status to "PAID", and
changing the status is its only effect on the order: items, quantities and
prices are exactly those of the input order. -/
theorem pay_sets_status_paid_only
    (c : CreditPaymentProcessor) (b : BitcoinPaymentProcessor)
    (d : DebitPaymentProcessor) (o : Order)
    (hd : d.auth.is_authorized = true) :
    c.pay o = { o with status := "PAID" }
    ∧ b.pay o = { o with status := "PAID" }
    ∧ (d.pay o).exn = none
    ∧ (d.pay o).order = { o with status := "PAID" } := by
  refine ⟨rfl, rfl, ?_, ?_⟩ <;>
    simp [DebitPaymentProcessor.pay, hd]

/-- C5, instantiated at a fresh order and a verified `SMSAuth`. -/
theorem pay_sets_status_paid_only_witness :
    (Authorizer.sms (SMSAuth.new.verify_code "1234")).is_authorized = true
    ∧ ((CreditPaymentProcessor.mk "1234").pay Order.new).status = "PAID"
    ∧ ((DebitPaymentProcessor.mk "9876"
        (Authorizer.sms (SMSAuth.new.verify_code "1234"))).pay
          Order.new).order.status = "PAID" :=
  ⟨by decide,
    congrArg Order.status
      (pay_sets_status_paid_only (CreditPaymentProcessor.mk "1234")
        (BitcoinPaymentProcessor.mk "wallet")
        (DebitPaymentProcessor.mk "9876"
          (Authorizer.sms (SMSAuth.new.verify_code "1234")))
        Order.new (by decide)).1,
    congrArg Order.status
      (pay_sets_status_paid_only (CreditPaymentProcessor.mk "1234")
        (BitcoinPaymentProcessor.mk "wallet")
        (DebitPaymentProcessor.mk "9876"
          (Authorizer.sms (SMSAuth.new.verify_code "1234")))
        Order.new (by decide)).2.2.2⟩

/-- C6: every authorization variant reports `is_authorized() = false` on a
fresh instance, and `true` after its verification action, which succeeds
unconditionally on any state. -/
theorem authorizer_false_before_true_after :
    SMSAuth.new.is_authorized = false
    ∧ NotARobot.new.is_authorized = false
    ∧ (∀ (a : SMSAuth) (code : String),
        (a.verify_code code).is_authorized = true)
    ∧ (∀ (a : NotARobot), a.not_a_robot.is_authorized = true) := by
  refine ⟨rfl, rfl, fun a code => rfl, fun a => rfl⟩

/-- C7: once an authorizer's `is_authorized()` is true, no sequence of
further method calls ever makes it false again. -/
theorem authorized_never_reset (a : Authorizer) (ops : List AuthOp)
    (h : a.is_authorized = true) :
    (a.applyOps ops).is_authorized = true := by
  induction ops generalizing a with
  | nil => exact h
  | cons op ops ih =>
    exact ih (a.applyOp op) (Authorizer.applyOp_mono a op h)

/-- C7, instantiated: a verified `SMSAuth` stays authorized across further
calls. -/
theorem authorized_never_reset_witness :
    (Authorizer.sms (SMSAuth.new.verify_code "1")).is_authorized = true
    ∧ ((Authorizer.sms (SMSAuth.new.verify_code "1")).applyOps
        [AuthOp.verify_code "2", AuthOp.not_a_robot]).is_authorized = true :=
  ⟨by decide,
    authorized_never_reset (Authorizer.sms (SMSAuth.new.verify_code "1"))
      [AuthOp.verify_code "2", AuthOp.not_a_robot] (by decide)⟩

/-- C8: when the debit processor's authorizer reports true, `pay` has
exactly the same effect on the order as the credit and bitcoin variants:
no exception, and the same resulting order state. -/
theorem debit_pay_equiv_credit_bitcoin
    (d : DebitPaymentProcessor) (c : CreditPaymentProcessor)
    (b : BitcoinPaymentProcessor) (o : Order)
    (h : d.auth.is_authorized = true) :
    (d.pay o).exn = none
    ∧ (d.pay o).order = c.pay o
    ∧ (d.pay o).order = b.pay o := by
  simp [DebitPaymentProcessor.pay, CreditPaymentProcessor.pay,
    BitcoinPaymentProcessor.pay, h]

/-- C8, instantiated at a fresh order and a verified `NotARobot`. -/
theorem debit_pay_equiv_credit_bitcoin_witness :
    (Authorizer.robot NotARobot.new.not_a_robot).is_authorized = true
    ∧ ((DebitPaymentProcessor.mk "9876"
        (Authorizer.robot NotARobot.new.not_a_robot)).pay Order.new).order
      = (CreditPaymentProcessor.mk "1234").pay Order.new :=
  ⟨by decide,
    (debit_pay_equiv_credit_bitcoin
      (DebitPaymentProcessor.mk "9876"
        (Authorizer.robot NotARobot.new.not_a_robot))
      (CreditPaymentProcessor.mk "1234")
      (BitcoinPaymentProcessor.mk "wallet")
      Order.new (by decide)).2.1⟩

/-- C9: the `__main__` scenario — add ("Keyboard",1,50), ("SSD",1,150),
("USB Cable",2,5) to a fresh order — totals 210. -/
theorem main_example_total_210 :
    (((Order.new.add_item "Keyboard" 1 50).add_item "SSD" 1 150).add_item
        "USB Cable" 2 5).total_price = some 210 := by
  decide

/-- C10: `add_item` appends exactly one element to each of the three
parallel sequences, hence preserves the equal-length invariant, and under
that invariant the index loop of `total_price` never goes out of bounds
(it returns a value, never an `IndexError`). -/
theorem parallel_invariant_preserved (o : Order) (name : String)
    (q p : Int) (h : o.parallel) :
    (o.add_item name q p).parallel
    ∧ (o.add_item name q p).items.length = o.items.length + 1
    ∧ (o.add_item name q p).quantities.length = o.quantities.length + 1
    ∧ (o.add_item name q p).prices.length = o.prices.length + 1
    ∧ (o.total_price).isSome = true := by
  obtain ⟨h1, h2⟩ := h
  refine ⟨⟨?_, ?_⟩, ?_, ?_, ?_, ?_⟩ <;>
    simp [Order.add_item, h1, h2, Order.total_price_eq o h2]

/-- C10, instantiated at a fresh order. -/
theorem parallel_invariant_preserved_witness :
    Order.new.parallel
    ∧ (Order.new.add_item "Keyboard" 1 50).parallel
    ∧ Order.new.total_price.isSome = true :=
  ⟨by decide,
    (parallel_invariant_preserved Order.new "Keyboard" 1 50 (by decide)).1,
    (parallel_invariant_preserved Order.new "Keyboard" 1 50 (by decide)).2.2.2.2⟩

end Solid
